import Mathlib

/-!
Verification development for the WhatsApp → Google Calendar booking tool
(`app.py`).  The Python code is shallowly embedded: strings are `List Char`,
`datetime` values are a record of an absolute day index plus time of day,
raised exceptions are `Except.error`, and the Google Calendar client is an
oracle (`CalendarBehavior`) whose invocations are recorded in a call trace.
Each definition carries a reference to the `app.py` lines it embeds.
-/

deriving instance DecidableEq for Except

namespace AgendaAI

/-- Python `str` is modelled as a list of characters. -/
abbrev Str := List Char

/-- Python regex `\d` (ASCII digits, as used by the patterns in `app.py`). -/
def isDigitC (c : Char) : Bool := decide (48 ≤ c.toNat ∧ c.toNat ≤ 57)

/-- Numeric value of an ASCII digit. -/
def digitVal (c : Char) : Nat := c.toNat - 48

/-- Python `int` on a nonempty digit string (regex groups are all-digit). -/
def natOfDigits (ds : Str) : Nat := ds.foldl (fun a c => 10 * a + digitVal c) 0

/-- Python regex `\s` / `str.strip` whitespace (ASCII part). -/
def isSpaceC (c : Char) : Bool :=
  c == ' ' || c == '\t' || c == '\n' || c == '\r' || c == '\x0b' || c == '\x0c'

/-- Python `str.lower` restricted to the Latin-1 letters that can occur in the
messages handled by `app.py`: ASCII `A`–`Z` and the accented block
`À`–`Þ` (except `×`) are shifted by 32, everything else is unchanged. -/
def lowerC (c : Char) : Char :=
  if (65 ≤ c.toNat ∧ c.toNat ≤ 90) ∨
     (192 ≤ c.toNat ∧ c.toNat ≤ 222 ∧ c.toNat ≠ 215) then
    Char.ofNat (c.toNat + 32)
  else c

/-- Python `str.lower` on a whole string. -/
def lowerStr (s : Str) : Str := s.map lowerC

/-- Does `hay` begin with `needle`?  (Used for Python `str.startswith` and as
the single-position step of substring search.) -/
def startsWithL : Str → Str → Bool
  | [], _ => true
  | _ :: _, [] => false
  | n :: ns, h :: hs => n == h && startsWithL ns hs

/-- Python `needle in hay` substring containment. -/
def containsSub (needle : Str) : Str → Bool
  | [] => needle.isEmpty
  | c :: rest => startsWithL needle (c :: rest) || containsSub needle rest

/-- Python `str.strip()`: drop whitespace from both ends. -/
def stripStr (s : Str) : Str :=
  ((s.dropWhile isSpaceC).reverse.dropWhile isSpaceC).reverse

/-- Does the string contain an ASCII digit anywhere? -/
def hasDigit (s : Str) : Bool := s.any isDigitC

/-- Python `datetime`, reduced to the fields `app.py` reads or writes: the
calendar date is abstracted to an absolute day index `day`, and `hour`,
`minute`, `second` are the time of day. -/
structure DateTime where
  day : Nat
  hour : Nat
  minute : Nat
  second : Nat
  deriving DecidableEq

/-- Python `date + timedelta(days=n)` (app.py line 58). -/
def addDays (d : DateTime) (n : Nat) : DateTime :=
  ⟨d.day + n, d.hour, d.minute, d.second⟩

/-- Python `dt + timedelta(hours=n)` (app.py lines 101 and 135), with the
day rolling over when the hour sum passes 24. -/
def addHours (d : DateTime) (n : Nat) : DateTime :=
  ⟨d.day + (d.hour + n) / 24, (d.hour + n) % 24, d.minute, d.second⟩

/-- Total number of seconds since the epoch of day 0; gives the chronological
order on `DateTime`. -/
def dtKey (d : DateTime) : Nat :=
  ((d.day * 24 + d.hour) * 60 + d.minute) * 60 + d.second

/-- Python `date.replace(hour=h, minute=m, second=s)` (app.py lines 64–68):
out-of-range fields raise `ValueError`, modelled as `Except.error` carrying
the CPython error text. -/
def replaceTime (d : DateTime) (h m s : Nat) : Except Str DateTime :=
  if 24 ≤ h then Except.error "hour must be in 0..23".data
  else if 60 ≤ m then Except.error "minute must be in 0..59".data
  else if 60 ≤ s then Except.error "second must be in 0..59".data
  else Except.ok ⟨d.day, h, m, s⟩

/-- Optional separator `[h:]?` of the time regex: consume one `h` or `:` if
present (greedy, as in Python `re`). -/
def dropSep : Str → Str
  | c :: rest => if c == 'h' || c == ':' then rest else c :: rest
  | [] => []

/-- Minute group `(\d{0,2})` of the time regex followed by
`int(minute) if minute else 0` (app.py line 66): up to two greedy digits,
value 0 when the group is empty. -/
def minuteVal : Str → Nat
  | c1 :: c2 :: _ =>
    if isDigitC c1 then
      if isDigitC c2 then 10 * digitVal c1 + digitVal c2 else digitVal c1
    else 0
  | [c1] => if isDigitC c1 then digitVal c1 else 0
  | [] => 0

/-- Match of `(\d{1,2})[h:]?(\d{0,2})` anchored at the head of the string:
returns `(hour, minute)` as the ints `app.py` line 63–66 computes.  The hour
group is greedy (two digits when available), and since the separator and
minute group are optional the match succeeds exactly when the head is a
digit. -/
def matchTimeAt : Str → Option (Nat × Nat)
  | [] => none
  | c1 :: rest =>
    if isDigitC c1 then
      match rest with
      | c2 :: rest2 =>
        if isDigitC c2 then
          some (10 * digitVal c1 + digitVal c2, minuteVal (dropSep rest2))
        else some (digitVal c1, minuteVal (dropSep rest))
      | [] => some (digitVal c1, 0)
    else none

/-- Python `re.search` with the time pattern (app.py lines 62 and
96): leftmost match, scanning positions left to right. -/
def searchTime : Str → Option (Nat × Nat)
  | [] => none
  | c :: rest =>
    match matchTimeAt (c :: rest) with
    | some r => some r
    | none => searchTime rest

/-- Match of `tema[: ]?(.+)` (flag `IGNORECASE`) anchored at the head:
the four letters `tema` case-insensitively, an optional `:` or space, then a
greedy nonempty capture running to the end of the line.  When the capture
after a consumed separator would be empty, Python backtracks and the
separator character itself starts the capture. -/
def matchTemaAt : Str → Option Str
  | t :: e :: m :: a :: rest =>
    if lowerC t == 't' && lowerC e == 'e' && lowerC m == 'm' && lowerC a == 'a' then
      match rest with
      | [] => none
      | c :: rest2 =>
        if c == ':' || c == ' ' then
          let cap := rest2.takeWhile (· != '\n')
          if cap.isEmpty then some (c :: cap) else some cap
        else
          let cap := (c :: rest2).takeWhile (· != '\n')
          if cap.isEmpty then none else some cap
    else none
  | _ => none

/-- Python `re.search` with the topic pattern (flag IGNORECASE) (app.py line 93):
leftmost match, returning the capture group. -/
def searchTema : Str → Option Str
  | [] => none
  | c :: rest =>
    match matchTemaAt (c :: rest) with
    | some r => some r
    | none => searchTema rest

/-- Match of `(\d+)\s*hora` anchored at the head: a maximal nonempty digit
run, then whitespace, then the literal `hora`.  (Backtracking to a shorter
digit or whitespace run can never succeed, so greedy runs are exact.) -/
def matchDuracaoAt (s : Str) : Option Nat :=
  let ds := s.takeWhile isDigitC
  if ds.isEmpty then none
  else if startsWithL "hora".data ((s.dropWhile isDigitC).dropWhile isSpaceC) then
    some (natOfDigits ds)
  else none

/-- Python `re.search` with the duration pattern (app.py line 97): leftmost match,
returning `int` of the digit group. -/
def searchDuracao : Str → Option Nat
  | [] => none
  | c :: rest =>
    match matchDuracaoAt (c :: rest) with
    | some r => some r
    | none => searchDuracao rest

/-- The tomorrow keyword tested at app.py line 57. -/
def amanhaKw : Str := "amanhã".data

/-- `GoogleCalendarTool._parse_time` (app.py lines 53–72).  `datetime.now()`
is modelled by the explicit reference argument `now`.  The body lowers the
text, shifts the base date by one day when the tomorrow keyword occurs, and
replaces the time of day by the first regex match; the `except` clause at
lines 70–72 re-raises, so a `ValueError` from `replace` propagates as
`Except.error`. -/
def parse_time (time_str : Str) (now : DateTime) : Except Str DateTime :=
  let t := lowerStr time_str
  let date := if containsSub amanhaKw t then addDays now 1 else now
  match searchTime t with
  | some hm => replaceTime date hm.1 hm.2 0
  | none => Except.ok date

/-- The base date `_parse_time` works from: `now + 1 day` when the lowered
text contains the tomorrow keyword, else `now` (app.py lines 56–60). -/
def baseDate (time_str : Str) (now : DateTime) : DateTime :=
  if containsSub amanhaKw (lowerStr time_str) then addDays now 1 else now

/-- The event body built at app.py lines 103–113 (the fields the code sets). -/
structure Evento where
  summary : Str
  startTime : DateTime
  endTime : DateTime
  timeZone : Str
  deriving DecidableEq

/-- An event returned by the calendar listing; the code reads only the id field
(app.py line 149). -/
structure EventItem where
  id : Str
  deriving DecidableEq

/-- One call made to the Google Calendar service: `events().insert`,
`events().list`, or `events().delete`. -/
inductive CalCall where
  | insert (e : Evento)
  | listEv (timeMin timeMax : DateTime)
  | delete (eventId : Str)
  deriving DecidableEq

/-- The Google Calendar service as an oracle: each method either returns a
value or raises (`Except.error`).  `insertEvent` yields the `htmlLink` field
of the created event when present. -/
structure CalendarBehavior where
  insertEvent : Evento → Except Str (Option Str)
  listEvents : DateTime → DateTime → Except Str (List EventItem)
  deleteEvent : Str → Except Str Unit

/-- The timezone constant of app.py lines 107 and 111. -/
def saoPauloTZ : Str := "America/Sao_Paulo".data

/-- Two-digit zero padding, as in `strftime` `%H` / `%M`. -/
def pad2 (n : Nat) : Str := if n < 10 then '0' :: (toString n).data else (toString n).data

/-- The `strftime` date rendering of the start (day/month, hour:minute) (app.py line 124).  The calendar
rendering `%d/%m` is abstracted to the decimal day index, because `DateTime`
models the date as an absolute day count. -/
def formatDM (d : DateTime) : Str :=
  (toString d.day).data ++ " às ".data ++ pad2 d.hour ++ ":".data ++ pad2 d.minute

/-- Topic extraction of app.py lines 93–94: the stripped regex capture, or
the default label `"Reunião"` when the pattern is absent. -/
def temaOf (mensagem : Str) : Str :=
  match searchTema mensagem with
  | some cap => stripStr cap
  | none => "Reunião".data

/-- Duration extraction of app.py lines 97 and 100: the matched int, or the
default 1 when the pattern is absent. -/
def duracaoOf (mensagem : Str) : Nat := (searchDuracao mensagem).getD 1

/-- The `try` body of `_agendar_evento` (app.py lines 91–125): extract the
topic and duration, parse the start, build and insert the event, and format
the confirmation.  An `Except.error` carries the exception text together
with the calendar calls already performed when it was raised. -/
def agendar_body (cal : CalendarBehavior) (now : DateTime) (mensagem : Str) :
    Except (Str × List CalCall) (Str × List CalCall) :=
  let tema := temaOf mensagem
  let duracao := duracaoOf mensagem
  match parse_time mensagem now with
  | Except.error e => Except.error (e, [])
  | Except.ok inicio =>
    let fim := addHours inicio duracao
    let evento : Evento := ⟨"📅 ".data ++ tema, inicio, fim, saoPauloTZ⟩
    match cal.insertEvent evento with
    | Except.error e => Except.error (e, [CalCall.insert evento])
    | Except.ok linkOpt =>
      let html_link := linkOpt.getD "link não disponível".data
      Except.ok
        ("✅ Reunião agendada!\nAssunto: ".data ++ tema ++ "\nData: ".data ++
            formatDM inicio ++ "\nLink: ".data ++ html_link,
          [CalCall.insert evento])

/-- `GoogleCalendarTool._agendar_evento` (app.py lines 89–129): the `try`
body with its `except` clause, which turns any raised error into the string
`"❌ Erro ao agendar: " + str(e)` instead of re-raising. -/
def agendar_evento (cal : CalendarBehavior) (now : DateTime) (mensagem : Str) :
    Str × List CalCall :=
  match agendar_body cal now mensagem with
  | Except.ok r => r
  | Except.error (e, calls) => ("❌ Erro ao agendar: ".data ++ e, calls)

/-- The `try` body of `_cancelar_evento` (app.py lines 133–155): parse the
start, list events in `[inicio, inicio + 1 hour)`, and either report that
nothing was found or delete the first listed event. -/
def cancelar_body (cal : CalendarBehavior) (now : DateTime) (mensagem : Str) :
    Except (Str × List CalCall) (Str × List CalCall) :=
  match parse_time mensagem now with
  | Except.error e => Except.error (e, [])
  | Except.ok inicio =>
    let fim := addHours inicio 1
    match cal.listEvents inicio fim with
    | Except.error e => Except.error (e, [CalCall.listEv inicio fim])
    | Except.ok items =>
      match items with
      | [] => Except.ok ("⚠️ Nenhum evento encontrado para cancelar".data,
          [CalCall.listEv inicio fim])
      | ev :: _ =>
        match cal.deleteEvent ev.id with
        | Except.error e =>
          Except.error (e, [CalCall.listEv inicio fim, CalCall.delete ev.id])
        | Except.ok _ =>
          Except.ok ("🗑️ Evento cancelado com sucesso!".data,
            [CalCall.listEv inicio fim, CalCall.delete ev.id])

/-- `GoogleCalendarTool._cancelar_evento` (app.py lines 131–159): the `try`
body with its `except` clause, which turns any raised error into the string
`"❌ Erro ao cancelar: " + str(e)` instead of re-raising. -/
def cancelar_evento (cal : CalendarBehavior) (now : DateTime) (mensagem : Str) :
    Str × List CalCall :=
  match cancelar_body cal now mensagem with
  | Except.ok r => r
  | Except.error (e, calls) => ("❌ Erro ao cancelar: ".data ++ e, calls)

/-- The two intents the tool distinguishes. -/
inductive Intent where
  | Cancel
  | Book
  deriving DecidableEq

/-- The cancel keyword list of app.py line 82. -/
def cancelKeywords : List Str := ["cancelar".data, "remover".data]

/-- The intent decision of `_run` (app.py lines 80–84): lower-case the text
and dispatch to cancellation when any cancel keyword occurs in it, otherwise
to booking. -/
def classify (text : Str) : Intent :=
  let mensagem := lowerStr text
  if cancelKeywords.any (fun w => containsSub w mensagem) then Intent.Cancel
  else Intent.Book

/-- `GoogleCalendarTool._run` (app.py lines 74–87).  A `context` argument
that is not a list is modelled as `none`; `some []` is the empty list (both
are falsy or fail `isinstance`, app.py line 77).  Otherwise the first element
is lowered and dispatched by intent.  The result pairs the reply string with
the trace of calendar calls performed. -/
def run_tool (cal : CalendarBehavior) (now : DateTime) (context : Option (List Str)) :
    Str × List CalCall :=
  match context with
  | none => ("❌ Mensagem inválida recebida".data, [])
  | some [] => ("❌ Mensagem inválida recebida".data, [])
  | some (m :: _) =>
    match classify m with
    | Intent.Cancel => cancelar_evento cal now (lowerStr m)
    | Intent.Book => agendar_evento cal now (lowerStr m)

/-- The WhatsApp address scheme constant of app.py line 196. -/
def waScheme : Str := "whatsapp:+".data

/-- `format_whatsapp_number` (app.py lines 191–199): empty input stays
empty; an input already carrying the scheme is returned unchanged; otherwise
the scheme is prepended to the input with its leading `+` signs stripped. -/
def format_whatsapp_number (number : Str) : Str :=
  if number.isEmpty then []
  else if startsWithL waScheme number then number
  else waScheme ++ number.dropWhile (· == '+')

/-- The events inserted along a call trace. -/
def insertedEvents (calls : List CalCall) : List Evento :=
  calls.filterMap (fun c => match c with
    | CalCall.insert e => some e
    | _ => none)

/-- Modelled from the spec: an occurrence of "an hour pattern `Hh` or
`H:MM`" at the head of the string — a one- or two-digit hour followed either
by the letter `h` or by `:` and a two-digit minute.  This is the stricter notion the spec gives of an hour pattern, stated for comparison with the regex the
code actually uses. -/
def specHourPatternAt (s : Str) : Bool :=
  let ds := s.takeWhile isDigitC
  let rest := s.dropWhile isDigitC
  (ds.length == 1 || ds.length == 2) &&
    (match rest with
     | 'h' :: _ => true
     | ':' :: m1 :: m2 :: _ => isDigitC m1 && isDigitC m2
     | _ => false)

/-- Modelled from the spec: the text contains an hour pattern `Hh` or
`H:MM` somewhere. -/
def specContainsHourPattern : Str → Bool
  | [] => false
  | c :: rest => specHourPatternAt (c :: rest) || specContainsHourPattern rest

/-- A calendar oracle whose calls all succeed; insertion reports a fixed
shareable link. -/
def okLink : Str := "https://calendar.google.com/event/abc".data

/-- A calendar oracle whose calls all succeed and whose listing is empty. -/
def okCal : CalendarBehavior :=
  ⟨fun _ => Except.ok (some okLink), fun _ _ => Except.ok [], fun _ => Except.ok ()⟩

/-- A calendar oracle holding one event whose listing always returns it. -/
def oneEventCal : CalendarBehavior :=
  ⟨fun _ => Except.ok none, fun _ _ => Except.ok [⟨"evt123".data⟩], fun _ => Except.ok ()⟩

/-- A calendar oracle whose every call raises a quota error. -/
def quotaCal : CalendarBehavior :=
  ⟨fun _ => Except.error "Rate Limit Exceeded".data,
   fun _ _ => Except.error "Rate Limit Exceeded".data,
   fun _ => Except.error "Rate Limit Exceeded".data⟩

/-- A concrete reference instant: some day D at 08:41:27. -/
def now0 : DateTime := ⟨738000, 8, 41, 27⟩

/-- The body of end-to-end scenario 1. -/
def scenario1Msg : Str := "tema: Reunião de equipe, 15h, 2 horas".data

/-- The lower-cased remainder of the line after `tema:` that the code
actually extracts as the topic for scenario 1. -/
def temaScenario1 : Str := "reunião de equipe, 15h, 2 horas".data

/-- The create-event request the code builds for scenario 1 at reference
instant `now0`. -/
def evScenario1 : Evento :=
  ⟨"📅 ".data ++ temaScenario1, ⟨738000, 15, 0, 0⟩, ⟨738000, 17, 0, 0⟩, saoPauloTZ⟩

/-- A text with digits but no `Hh` / `H:MM` shaped hour pattern. -/
def c2Text : Str := "reuniao em 2 dias".data

/-- A text whose only `Hh` shaped pattern is `15h`, preceded by the bare
digit `9`. -/
def c4Text : Str := "sala 9 às 15h".data

/-- A booking message whose duration pattern matches `0 horas`. -/
def c6Msg : Str := "tema: planejamento às 15h por 0 horas".data

/-- Valid scalar values below the surrogate range round-trip through
`Char.ofNat`. -/
theorem toNat_ofNat_small (n : Nat) (h : n < 55296) : (Char.ofNat n).toNat = n := by
  unfold Char.ofNat
  rw [dif_pos]
  · rfl
  · exact Or.inl (by omega)

/-- Lower-casing never turns a non-digit character into a digit. -/
theorem isDigitC_lowerC (c : Char) (h : isDigitC c = false) :
    isDigitC (lowerC c) = false := by
  unfold lowerC
  split
  · rename_i hc
    have hv : (Char.ofNat (c.toNat + 32)).toNat = c.toNat + 32 :=
      toNat_ofNat_small _ (by omega)
    simp only [isDigitC, hv, decide_eq_false_iff_not]
    omega
  · exact h

/-- Lower-casing a digit-free string yields a digit-free string. -/
theorem hasDigit_lowerStr (s : Str) (h : hasDigit s = false) :
    hasDigit (lowerStr s) = false := by
  induction s with
  | nil => rfl
  | cons c rest ih =>
    simp only [hasDigit, lowerStr, List.map_cons, List.any_cons,
      Bool.or_eq_false_iff] at *
    exact ⟨isDigitC_lowerC c h.1, ih h.2⟩

/-- The time regex has no match in a digit-free string. -/
theorem searchTime_eq_none (s : Str) (h : hasDigit s = false) :
    searchTime s = none := by
  induction s with
  | nil => rfl
  | cons c rest ih =>
    simp only [hasDigit, List.any_cons, Bool.or_eq_false_iff] at h
    simp only [searchTime, matchTimeAt, h.1, Bool.false_eq_true, if_false]
    exact ih h.2

/-- A string begins with itself followed by anything. -/
theorem startsWithL_append (p s : Str) : startsWithL p (p ++ s) = true := by
  induction p with
  | nil => rfl
  | cons c rest ih => simp [startsWithL, ih]

/-- A prefix occurrence is a substring occurrence. -/
theorem containsSub_of_startsWithL (n h : Str) (hs : startsWithL n h = true) :
    containsSub n h = true := by
  cases h with
  | nil =>
    cases n with
    | nil => rfl
    | cons c rest => simp [startsWithL] at hs
  | cons c rest => simp [containsSub, hs]

/-- Substring containment is preserved by prepending text. -/
theorem containsSub_append_left (a n s : Str) (h : containsSub n s = true) :
    containsSub n (a ++ s) = true := by
  induction a with
  | nil => simpa using h
  | cons c rest ih => simp [containsSub, ih]

/-- Adding hours advances the chronological key by that many seconds. -/
theorem dtKey_addHours (d : DateTime) (n : Nat) :
    dtKey (addHours d n) = dtKey d + n * 3600 := by
  simp only [dtKey, addHours]
  omega

/-- C2 (counterexample): the text `"reuniao em 2 dias"` contains no hour
pattern of the form `Hh` or `H:MM`, yet `_parse_time` does not keep the
reference time-of-day 08:41:27 — its regex accepts the bare digit `2` and
returns 02:00:00.  This refutes the claim as stated. -/
theorem C2_counterexample :
    specContainsHourPattern c2Text = false ∧
    specContainsHourPattern (lowerStr c2Text) = false ∧
    containsSub amanhaKw (lowerStr c2Text) = false ∧
    parse_time c2Text now0 = Except.ok ⟨738000, 2, 0, 0⟩ ∧
    (⟨738000, 2, 0, 0⟩ : DateTime) ≠ now0 := by decide

/-- C2 (amended): for every input text containing no digit character at all,
`_parse_time` returns the base date — the reference timestamp, shifted by
one day when the tomorrow keyword occurs — with its time-of-day unchanged. -/
theorem C2_amended (t : Str) (now : DateTime) (h : hasDigit t = false) :
    parse_time t now = Except.ok (baseDate t now) ∧
    (baseDate t now).hour = now.hour ∧
    (baseDate t now).minute = now.minute ∧
    (baseDate t now).second = now.second ∧
    (baseDate t now).day =
      (if containsSub amanhaKw (lowerStr t) then now.day + 1 else now.day) := by
  have hsearch : searchTime (lowerStr t) = none :=
    searchTime_eq_none _ (hasDigit_lowerStr t h)
  refine ⟨?_, ?_, ?_, ?_, ?_⟩
  · simp only [parse_time, hsearch, baseDate]
  · unfold baseDate; split <;> rfl
  · unfold baseDate; split <;> rfl
  · unfold baseDate; split <;> rfl
  · unfold baseDate; split <;> rfl

/-- C2 (witness): on a digit-free text with the tomorrow keyword, the parser
keeps 08:41:27 and only shifts the day. -/
theorem C2_witness :
    parse_time "cancelar reunião amanhã".data now0 =
      Except.ok ⟨738001, 8, 41, 27⟩ := by
  rw [(C2_amended "cancelar reunião amanhã".data now0 (by decide)).1]
  decide

/-- C3: whenever the time regex match in the lowered text carries an hour
of 24 or more or a minute of 60 or more, `_parse_time` raises (its `except`
clause re-raises the `ValueError` from `replace`), so no `ParsedTime` is
returned. -/
theorem C3_out_of_range_fails (t : Str) (now : DateTime) (h m : Nat)
    (hs : searchTime (lowerStr t) = some (h, m)) (hr : 24 ≤ h ∨ 60 ≤ m) :
    ∃ e, parse_time t now = Except.error e := by
  simp only [parse_time, hs, replaceTime]
  split_ifs with h1 h2 h3
  · exact ⟨_, rfl⟩
  · exact ⟨_, rfl⟩
  · exact ⟨_, rfl⟩
  · omega

/-- C3 (witness): `"25h99"` matches with hour 25 and minute 99 and the
parser fails on it. -/
theorem C3_witness : ∃ e, parse_time "25h99".data now0 = Except.error e :=
  C3_out_of_range_fails "25h99".data now0 25 99 (by decide) (Or.inl (by decide))

/-- C4 (counterexample): the text `"sala 9 às 15h"` contains the hour
pattern `15h` (hour 15, minute 0, both in range), yet `_parse_time` returns
09:00 — its regex takes the leftmost digit run `9`, not the `Hh` shaped
occurrence.  This refutes the claim as stated. -/
theorem C4_counterexample :
    specContainsHourPattern c4Text = true ∧
    containsSub "15h".data c4Text = true ∧
    parse_time c4Text now0 = Except.ok ⟨738000, 9, 0, 0⟩ ∧
    parse_time c4Text now0 ≠ Except.ok ⟨738000, 15, 0, 0⟩ := by decide

/-- C4 (amended): `_parse_time` applies the first match of
`(\d{1,2})[h:]?(\d{0,2})` in the lower-cased text; whenever that first match
has hour below 24 and minute below 60, the result is exactly that hour and
minute with seconds zeroed, on the reference date (shifted by one day when
the tomorrow keyword is present). -/
theorem C4_amended (t : Str) (now : DateTime) (h m : Nat)
    (hs : searchTime (lowerStr t) = some (h, m)) (hh : h < 24) (hm : m < 60) :
    parse_time t now = Except.ok ⟨(baseDate t now).day, h, m, 0⟩ := by
  simp only [parse_time, hs, replaceTime, baseDate]
  rw [if_neg (by omega), if_neg (by omega), if_neg (by omega)]

/-- C4 (witness): `"amanhã às 15h30"` parses to the next day at 15:30:00. -/
theorem C4_witness :
    parse_time "amanhã às 15h30".data now0 = Except.ok ⟨738001, 15, 30, 0⟩ := by
  rw [C4_amended "amanhã às 15h30".data now0 15 30 (by decide) (by decide) (by decide)]
  decide

/-- C7: the intent decision of `_run` is total — every text maps to `Cancel`
or to `Book`, the two intents are distinct, and the result is `Cancel`
exactly when the lower-cased text contains one of the cancel keywords
`"cancelar"`, `"remover"`. -/
theorem C7_classify_total (text : Str) :
    (classify text = Intent.Cancel ∨ classify text = Intent.Book) ∧
    Intent.Cancel ≠ Intent.Book ∧
    (classify text = Intent.Cancel ↔
      (containsSub "cancelar".data (lowerStr text) = true ∨
        containsSub "remover".data (lowerStr text) = true)) := by
  refine ⟨?_, by decide, ?_⟩
  · simp only [classify]
    split
    · exact Or.inl rfl
    · exact Or.inr rfl
  · simp only [classify, cancelKeywords, List.any_cons, List.any_nil,
      Bool.or_false]
    split
    · rename_i hcond
      simp only [Bool.or_eq_true] at hcond
      exact iff_of_true rfl hcond
    · rename_i hcond
      simp only [Bool.or_eq_true] at hcond
      exact iff_of_false (by decide) hcond

/-- C9 (counterexample): the unprefixed input `"+5511999888777"` is not
mapped to the scheme prepended to the input — the code first strips the
leading `+`.  This refutes the "prefix prepended" clause as stated. -/
theorem C9_counterexample :
    startsWithL waScheme "+5511999888777".data = false ∧
    format_whatsapp_number "+5511999888777".data =
      "whatsapp:+5511999888777".data ∧
    format_whatsapp_number "+5511999888777".data ≠
      waScheme ++ "+5511999888777".data := by decide

/-- C9 (amended): normalization is idempotent; an already-prefixed address
is unchanged; a nonempty unprefixed address gets the scheme prepended to the
input with its leading `+` signs stripped; the empty string maps to itself. -/
theorem C9_amended (x : Str) :
    format_whatsapp_number (format_whatsapp_number x) = format_whatsapp_number x ∧
    (startsWithL waScheme x = true → format_whatsapp_number x = x) ∧
    (x ≠ [] → startsWithL waScheme x = false →
      format_whatsapp_number x = waScheme ++ x.dropWhile (· == '+')) ∧
    format_whatsapp_number [] = [] := by
  have hne : ∀ s : Str, (waScheme ++ s).isEmpty = false := fun s => rfl
  have hsw : ∀ s : Str, startsWithL waScheme (waScheme ++ s) = true := fun s =>
    startsWithL_append _ _
  refine ⟨?_, ?_, ?_, rfl⟩
  · cases x with
    | nil => rfl
    | cons c cs =>
      by_cases hpre : startsWithL waScheme (c :: cs) = true
      · simp [format_whatsapp_number, hpre]
      · have hx : format_whatsapp_number (c :: cs) =
            waScheme ++ (c :: cs).dropWhile (· == '+') := by
          simp [format_whatsapp_number, hpre]
        rw [hx]
        simp [format_whatsapp_number, hne, hsw]
  · intro hpre
    cases x with
    | nil => exact absurd hpre (by decide)
    | cons c cs => simp [format_whatsapp_number, hpre]
  · intro hxne hpre
    cases x with
    | nil => exact absurd rfl hxne
    | cons c cs => simp [format_whatsapp_number, hpre]

/-- C9 (witness): an already-prefixed address is left unchanged. -/
theorem C9_witness :
    format_whatsapp_number "whatsapp:+5511999888777".data =
      "whatsapp:+5511999888777".data :=
  (C9_amended "whatsapp:+5511999888777".data).2.1 (by decide)

/-- C5: errors raised inside `_agendar_evento` or `_cancelar_evento` — a
parser error or a calendar error, whatever the oracle does — are caught at
the handler boundary and turned into a reply prefixed with the failure
marker `"❌ Erro ao ..."` together with the calls already made; they are not
re-raised (the handlers are total functions into strings here, as in the
code, whose `except` clauses return).  The dispatcher `_run` receives
exactly one of the strings of the two handlers. -/
theorem C5_handlers_no_throw (cal : CalendarBehavior) (now : DateTime) (msg : Str) :
    (∀ e calls, agendar_body cal now msg = Except.error (e, calls) →
      agendar_evento cal now msg = ("❌ Erro ao agendar: ".data ++ e, calls)) ∧
    (∀ e calls, cancelar_body cal now msg = Except.error (e, calls) →
      cancelar_evento cal now msg = ("❌ Erro ao cancelar: ".data ++ e, calls)) ∧
    (∀ m rest,
      run_tool cal now (some (m :: rest)) = agendar_evento cal now (lowerStr m) ∨
      run_tool cal now (some (m :: rest)) = cancelar_evento cal now (lowerStr m)) := by
  refine ⟨?_, ?_, ?_⟩
  · intro e calls h
    simp only [agendar_evento, h]
  · intro e calls h
    simp only [cancelar_evento, h]
  · intro m rest
    simp only [run_tool]
    cases classify m
    · exact Or.inr rfl
    · exact Or.inl rfl

/-- C5 (witness): with a calendar oracle whose insert raises a quota error,
the booking handler on scenario 1 returns the failure-marked string. -/
theorem C5_witness :
    agendar_evento quotaCal now0 (lowerStr scenario1Msg) =
      ("❌ Erro ao agendar: ".data ++ "Rate Limit Exceeded".data,
        [CalCall.insert evScenario1]) :=
  (C5_handlers_no_throw quotaCal now0 (lowerStr scenario1Msg)).1
    "Rate Limit Exceeded".data [CalCall.insert evScenario1] (by decide)

/-- C6 (counterexample): the booking message `c6Msg` matches the duration
pattern with `0`, so the built event has end time equal to its start time —
the end is not strictly after the start.  This refutes the claim as
stated. -/
theorem C6_counterexample :
    duracaoOf (lowerStr c6Msg) = 0 ∧
    insertedEvents (run_tool okCal now0 (some [c6Msg])).2 =
      [⟨"📅 planejamento às 15h por 0 horas".data, ⟨738000, 15, 0, 0⟩,
        ⟨738000, 15, 0, 0⟩, saoPauloTZ⟩] ∧
    ¬ dtKey (⟨738000, 15, 0, 0⟩ : DateTime) <
        dtKey (⟨738000, 15, 0, 0⟩ : DateTime) := by decide

/-- C6 (amended): every event the booking handler inserts has
`end = start + durationHours` where `durationHours` is the first
`(\d+)\s*hora` match, defaulting to 1 when absent; that match may be 0, and
the end is strictly after the start exactly when `durationHours ≥ 1`. -/
theorem C6_amended (cal : CalendarBehavior) (now : DateTime) (msg : Str) (ev : Evento)
    (hmem : ev ∈ insertedEvents (agendar_evento cal now msg).2) :
    ev.endTime = addHours ev.startTime (duracaoOf msg) ∧
    (dtKey ev.startTime < dtKey ev.endTime ↔ 1 ≤ duracaoOf msg) := by
  rcases hpt : parse_time msg now with e | inicio
  · simp only [agendar_evento, agendar_body, hpt] at hmem
    simp [insertedEvents] at hmem
  · rcases hins : cal.insertEvent ⟨"📅 ".data ++ temaOf msg, inicio,
        addHours inicio (duracaoOf msg), saoPauloTZ⟩ with e2 | linkOpt <;>
    · simp only [agendar_evento, agendar_body, hpt, hins] at hmem
      simp only [insertedEvents, List.filterMap_cons, List.filterMap_nil] at hmem
      rw [List.mem_singleton] at hmem
      subst hmem
      refine ⟨rfl, ?_⟩
      show dtKey inicio < dtKey (addHours inicio (duracaoOf msg)) ↔ 1 ≤ duracaoOf msg
      rw [dtKey_addHours]
      omega

/-- C6 (witness): the scenario-1 booking inserts an event with
`end = start + 2 hours`, strictly after its start. -/
theorem C6_witness :
    evScenario1.endTime =
      addHours evScenario1.startTime (duracaoOf (lowerStr scenario1Msg)) ∧
    (dtKey evScenario1.startTime < dtKey evScenario1.endTime ↔
      1 ≤ duracaoOf (lowerStr scenario1Msg)) :=
  C6_amended okCal now0 (lowerStr scenario1Msg) evScenario1 (by decide)

/-- C8: when the parse succeeds and the calendar listing over the window
from `inicio` to `inicio + 1 hour` succeeds, the cancellation handler
returns the "nothing found" reply with no delete call when the listing is
empty, and otherwise performs exactly one delete, on the id of the first
listed event. -/
theorem C8_cancellation (cal : CalendarBehavior) (now : DateTime) (msg : Str)
    (inicio : DateTime) (items : List EventItem)
    (hp : parse_time msg now = Except.ok inicio)
    (hl : cal.listEvents inicio (addHours inicio 1) = Except.ok items) :
    (items = [] →
      cancelar_evento cal now msg =
        ("⚠️ Nenhum evento encontrado para cancelar".data,
          [CalCall.listEv inicio (addHours inicio 1)])) ∧
    (∀ ev rest, items = ev :: rest →
      (cancelar_evento cal now msg).2 =
        [CalCall.listEv inicio (addHours inicio 1), CalCall.delete ev.id]) := by
  constructor
  · intro hnil
    subst hnil
    simp only [cancelar_evento, cancelar_body, hp, hl]
  · intro ev rest hcons
    subst hcons
    simp only [cancelar_evento, cancelar_body, hp, hl]
    rcases cal.deleteEvent ev.id with e | u <;> rfl

/-- C8 (witness): cancelling at 9h against a calendar holding one event
lists the one-hour window and deletes exactly that event. -/
theorem C8_witness :
    (cancelar_evento oneEventCal now0 (lowerStr "cancelar às 9h".data)).2 =
      [CalCall.listEv ⟨738000, 9, 0, 0⟩ (addHours ⟨738000, 9, 0, 0⟩ 1),
        CalCall.delete "evt123".data] :=
  (C8_cancellation oneEventCal now0 (lowerStr "cancelar às 9h".data)
      ⟨738000, 9, 0, 0⟩ [⟨"evt123".data⟩] (by decide) (by decide)).2
    ⟨"evt123".data⟩ [] rfl

/-- Scenario 1 parses to 15:00:00 on the reference day, whatever the
reference instant is. -/
theorem parse_scenario1 (now : DateTime) :
    parse_time (lowerStr scenario1Msg) now = Except.ok ⟨now.day, 15, 0, 0⟩ := by
  have hs : searchTime (lowerStr (lowerStr scenario1Msg)) = some (15, 0) := by decide
  have ha : containsSub amanhaKw (lowerStr (lowerStr scenario1Msg)) = false := by decide
  simp only [parse_time, hs, ha, Bool.false_eq_true, if_false, replaceTime]
  rw [if_neg (by decide), if_neg (by decide), if_neg (by decide)]

/-- C1 (counterexample): for scenario 1 the single create-event request the
code builds carries the topic `"reunião de equipe, 15h, 2 horas"` — the
lower-cased remainder of the whole line after `tema:` — and not the topic
`"Reunião de equipe"` the claim states.  This refutes the claim as
stated. -/
theorem C1_counterexample :
    insertedEvents (run_tool okCal now0 (some [scenario1Msg])).2 =
      [⟨"📅 ".data ++ temaScenario1, ⟨738000, 15, 0, 0⟩, ⟨738000, 17, 0, 0⟩,
        saoPauloTZ⟩] ∧
    "📅 ".data ++ temaScenario1 ≠ "📅 ".data ++ "Reunião de equipe".data := by
  decide

/-- C1 (amended): for scenario 1 with any reference instant, the tool
inserts one event with topic `"reunião de equipe, 15h, 2 horas"` (the
lower-cased rest of the line after `tema:`), start at 15:00 and end at
17:00 of the reference day, and replies with a success message containing
that topic and the event link. -/
theorem C1_amended (now : DateTime) :
    run_tool okCal now (some [scenario1Msg]) =
      ("✅ Reunião agendada!\nAssunto: ".data ++ (temaScenario1 ++ ("\nData: ".data ++
          (formatDM ⟨now.day, 15, 0, 0⟩ ++ ("\nLink: ".data ++ okLink)))),
        [CalCall.insert ⟨"📅 ".data ++ temaScenario1, ⟨now.day, 15, 0, 0⟩,
          ⟨now.day, 17, 0, 0⟩, saoPauloTZ⟩]) ∧
    containsSub temaScenario1 (run_tool okCal now (some [scenario1Msg])).1 = true ∧
    containsSub okLink (run_tool okCal now (some [scenario1Msg])).1 = true := by
  have hcl : classify scenario1Msg = Intent.Book := by decide
  have htema : temaOf (lowerStr scenario1Msg) = temaScenario1 := by decide
  have hdur : duracaoOf (lowerStr scenario1Msg) = 2 := by decide
  have hpt := parse_scenario1 now
  have hfim : addHours ⟨now.day, 15, 0, 0⟩ 2 = (⟨now.day, 17, 0, 0⟩ : DateTime) := by
    simp [addHours]
  have hrun : run_tool okCal now (some [scenario1Msg]) =
      ("✅ Reunião agendada!\nAssunto: ".data ++ (temaScenario1 ++ ("\nData: ".data ++
          (formatDM ⟨now.day, 15, 0, 0⟩ ++ ("\nLink: ".data ++ okLink)))),
        [CalCall.insert ⟨"📅 ".data ++ temaScenario1, ⟨now.day, 15, 0, 0⟩,
          ⟨now.day, 17, 0, 0⟩, saoPauloTZ⟩]) := by
    simp only [run_tool, hcl, agendar_evento, agendar_body, htema, hdur, hpt, hfim,
      okCal, Option.getD]
    simp [List.append_assoc]
  refine ⟨hrun, ?_, ?_⟩
  · rw [hrun]
    exact containsSub_append_left _ _ _
      (containsSub_of_startsWithL _ _ (startsWithL_append _ _))
  · rw [hrun]
    refine containsSub_append_left _ _ _ ?_
    refine containsSub_append_left _ _ _ ?_
    refine containsSub_append_left _ _ _ ?_
    refine containsSub_append_left _ _ _ ?_
    refine containsSub_append_left _ _ _ ?_
    exact (by decide : containsSub okLink okLink = true)

/-- C10: a `context` that is not a list (`none`) or is an empty list yields
the fixed invalid-message reply, with an empty calendar-call trace and the
same result for every calendar oracle — so neither handler nor any calendar
call is reached. -/
theorem C10_invalid_context (cal : CalendarBehavior) (now : DateTime) :
    run_tool cal now none = ("❌ Mensagem inválida recebida".data, []) ∧
    run_tool cal now (some []) = ("❌ Mensagem inválida recebida".data, []) :=
  ⟨rfl, rfl⟩

end AgendaAI
